import Mathlib

/-!
Verification of the Andor iXon Ultra 897 camera driver
(`src/hardware/camera/andor/iXon897_ultra.py`) against its specification.

The driver is embedded shallowly: the vendor DLL (the Device Transport) is a
record of response values, every driver method is a pure function from the
transport and the in-memory object state to a result, the successor state and
the list of transport calls issued, and Python exceptions (UnboundLocalError,
KeyError, TypeError, numpy ValueError) are modelled through `Except`.
Machine floats of the source (exposure times, gain values) are modelled as
rationals; Python integers as `Int`/`Nat`.
-/

namespace IxonUltra

/-- Python exceptions that the embedded methods can raise. -/
inductive PyErr
  | unboundLocal (name : String)
  | keyError (key : Nat)
  | typeError (msg : String)
  | valueError (msg : String)
deriving DecidableEq, Repr

/-- One call into the vendor DLL, with the arguments passed
(`self.dll.<Name>(...)` in the source). -/
inductive DllCall
  | SetReadMode (n : Nat)
  | SetImage (hbin vbin hstart hend vstart vend : Int)
  | SetTriggerMode (n : Nat)
  | SetAcquisitionMode (n : Nat)
  | SetTemperature (t : Int)
  | SetShutter (typ mode : Int) (closingtime openingtime : Rat)
  | StartAcquisition
  | WaitForAcquisition
  | AbortAcquisition
  | GetNumberPreAmpGains
  | GetPreAmpGain (i : Nat)
  | SetPreAmpGain (i : Nat)
  | GetAcquiredData (dim : Int)
  | GetOldestImage (dim : Int)
  | GetStatus
deriving DecidableEq, Repr

/-- The Device Transport: for every DLL primitive used by the embedded
methods, the status code it returns (and, for by-reference output
parameters, the value it writes). -/
structure Dll where
  SetReadMode : Nat → Nat
  SetImage : Int → Int → Int → Int → Int → Int → Nat
  SetTriggerMode : Nat → Nat
  SetAcquisitionMode : Nat → Nat
  SetTemperature : Int → Nat
  SetShutter : Int → Int → Rat → Rat → Nat
  StartAcquisition : Nat
  AbortAcquisition : Nat
  GetNumberPreAmpGains : Nat
  GetPreAmpGain : Nat → Rat
  SetPreAmpGain : Nat → Nat
  GetAcquiredData : Nat
  GetOldestImage : Nat
  acquired_data_vals : Nat → Int
  oldest_image_vals : Nat → Int
  GetStatus : Nat
  GetStatus_value : Nat

/-- The mutable attributes of the `IxonUltra` object that the embedded
methods read or write (source lines 139-164 and `_set_image`). -/
structure IxonState where
  _exposure : Rat
  _temperature : Int
  _cooler_on : Bool
  _read_mode : String
  _acquisition_mode : String
  _trigger_mode : String
  _preamp_gain_index : Nat
  _gain : Rat
  _width : Int
  _height : Int
  _min_temperature : Int
  _live : Bool
  _shutter : String
  _scans : Int
  _acquiring : Bool
  _baseline : Int
  _hbin : Int
  _vbin : Int
  _hstart : Int
  _hend : Int
  _vstart : Int
  _vend : Int
  _cur_image : List Int
deriving DecidableEq, Repr

/-- Result of one embedded method: the returned value or raised exception,
the state of the object afterwards, and the transport calls issued. -/
abbrev PyResult (α : Type) := Except PyErr α × IxonState × List DllCall

/-- ERROR_DICT from the source (lines 58-103). -/
def ERROR_DICT : List (Nat × String) :=
  [(20001, "DRV_ERROR_CODES"),
   (20002, "DRV_SUCCESS"),
   (20003, "DRV_VXNOTINSTALLED"),
   (20006, "DRV_ERROR_FILELOAD"),
   (20007, "DRV_ERROR_VXD_INIT"),
   (20010, "DRV_ERROR_PAGELOCK"),
   (20011, "DRV_ERROR_PAGE_UNLOCK"),
   (20013, "DRV_ERROR_ACK"),
   (20024, "DRV_NO_NEW_DATA"),
   (20026, "DRV_SPOOLERROR"),
   (20034, "DRV_TEMP_OFF"),
   (20035, "DRV_TEMP_NOT_STABILIZED"),
   (20036, "DRV_TEMP_STABILIZED"),
   (20037, "DRV_TEMP_NOT_REACHED"),
   (20038, "DRV_TEMP_OUT_RANGE"),
   (20039, "DRV_TEMP_NOT_SUPPORTED"),
   (20040, "DRV_TEMP_DRIFT"),
   (20050, "DRV_COF_NOTLOADED"),
   (20053, "DRV_FLEXERROR"),
   (20066, "DRV_P1INVALID"),
   (20067, "DRV_P2INVALID"),
   (20068, "DRV_P3INVALID"),
   (20069, "DRV_P4INVALID"),
   (20070, "DRV_INIERROR"),
   (20071, "DRV_COERROR"),
   (20072, "DRV_ACQUIRING"),
   (20073, "DRV_IDLE"),
   (20074, "DRV_TEMPCYCLE"),
   (20075, "DRV_NOT_INITIALIZED"),
   (20076, "DRV_P5INVALID"),
   (20077, "DRV_P6INVALID"),
   (20078, "DRV_INVALID_MODE"),
   (20079, "DRV_INVALID_FILTER"),
   (20080, "DRV_l2CERRORS"),
   (20081, "DRV_DRV_l2CDEVNOTFOUND"),
   (20082, "DRV_l2CTIMEOUT"),
   (20083, "P7_INVALID"),
   (20089, "DRV_USBERROR"),
   (20091, "DRV_NOT_SUPPORTED"),
   (20095, "DRV_INVALID_TRIGGER_MODE"),
   (20099, "DRV_BINNING_ERROR"),
   (20990, "DRV_NOCAMERA"),
   (20991, "DRV_NOT_SUPPORTED"),
   (20992, "DRV_NOT_AVAILABLE")]

/-- `hasattr(ReadMode, mode)` for the enum member names (source lines 36-41). -/
def ReadMode.hasattr (mode : String) : Bool :=
  mode == "FVB" || mode == "MULTI_TRACK" || mode == "RANDOM_TRACK" ||
  mode == "SINGLE_TRACK" || mode == "IMAGE"

/-- `getattr(ReadMode, mode).value` (source lines 36-41). -/
def ReadMode.value : String → Nat
  | "FVB" => 0
  | "MULTI_TRACK" => 1
  | "RANDOM_TRACK" => 2
  | "SINGLE_TRACK" => 3
  | "IMAGE" => 4
  | _ => 0

/-- `hasattr(AcquisitionMode, mode)` (source lines 43-48). -/
def AcquisitionMode.hasattr (mode : String) : Bool :=
  mode == "SINGLE_SCAN" || mode == "ACCUMULATE" || mode == "KINETICS" ||
  mode == "FAST_KINETICS" || mode == "RUN_TILL_ABORT"

/-- `getattr(AcquisitionMode, mode).value` (source lines 43-48). -/
def AcquisitionMode.value : String → Nat
  | "SINGLE_SCAN" => 1
  | "ACCUMULATE" => 2
  | "KINETICS" => 3
  | "FAST_KINETICS" => 4
  | "RUN_TILL_ABORT" => 5
  | _ => 0

/-- `hasattr(TriggerMode, mode)` (source lines 50-56). -/
def TriggerMode.hasattr (mode : String) : Bool :=
  mode == "INTERNAL" || mode == "EXTERNAL" || mode == "EXTERNAL_START" ||
  mode == "EXTERNAL_EXPOSURE" || mode == "SOFTWARE_TRIGGER" ||
  mode == "EXTERNAL_CHARGE_SHIFTING"

/-- `getattr(TriggerMode, mode).value` (source lines 50-56). -/
def TriggerMode.value : String → Nat
  | "INTERNAL" => 0
  | "EXTERNAL" => 1
  | "EXTERNAL_START" => 6
  | "EXTERNAL_EXPOSURE" => 7
  | "SOFTWARE_TRIGGER" => 10
  | "EXTERNAL_CHARGE_SHIFTING" => 12
  | _ => 0

/-- `_set_image` (source lines 493-521): issues `SetImage`; on success commits
the sub-region fields and recomputes width and height, otherwise leaves the
state unchanged; accessing `ERROR_DICT[error_code]` with an unknown code
raises KeyError. -/
def _set_image (dll : Dll) (st : IxonState)
    (hbin vbin hstart hend vstart vend : Int) : PyResult String :=
  let error_code := dll.SetImage hbin vbin hstart hend vstart vend
  let call := DllCall.SetImage hbin vbin hstart hend vstart vend
  match ERROR_DICT.lookup error_code with
  | none => (.error (.keyError error_code), st, [call])
  | some msg =>
    if msg = "DRV_SUCCESS" then
      (.ok msg,
       { st with _hbin := hbin, _vbin := vbin, _hstart := hstart, _hend := hend,
                 _vstart := vstart, _vend := vend,
                 _width := ((hend - hstart + 1).tdiv hbin),
                 _height := ((vend - vstart + 1).tdiv vbin) },
       [call])
    else
      (.ok msg, st, [call])

/-- `_set_read_mode` (source lines 439-461): for a recognized mode issues
`SetReadMode`; for mode IMAGE additionally always issues the full-geometry
`_set_image(1, 1, 1, width, 1, height)`, whose non-success result is only
logged; commitment of `_read_mode` and the returned 0 or -1 depend solely on
the `SetReadMode` status code. For an unrecognized mode the source reads
the never-assigned local `error_code`, raising UnboundLocalError. -/
def _set_read_mode (dll : Dll) (st : IxonState) (mode : String) : PyResult Int :=
  if ReadMode.hasattr mode then
    let n_mode := ReadMode.value mode
    let error_code := dll.SetReadMode n_mode
    if mode = "IMAGE" then
      match _set_image dll st 1 1 1 st._width 1 st._height with
      | (.error e, st1, c1) => (.error e, st1, DllCall.SetReadMode n_mode :: c1)
      | (.ok _, st1, c1) =>
        match ERROR_DICT.lookup error_code with
        | none => (.error (.keyError error_code), st1, DllCall.SetReadMode n_mode :: c1)
        | some s =>
          if s ≠ "DRV_SUCCESS" then (.ok (-1), st1, DllCall.SetReadMode n_mode :: c1)
          else (.ok 0, { st1 with _read_mode := mode }, DllCall.SetReadMode n_mode :: c1)
    else
      match ERROR_DICT.lookup error_code with
      | none => (.error (.keyError error_code), st, [DllCall.SetReadMode n_mode])
      | some s =>
        if s ≠ "DRV_SUCCESS" then (.ok (-1), st, [DllCall.SetReadMode n_mode])
        else (.ok 0, { st with _read_mode := mode }, [DllCall.SetReadMode n_mode])
  else
    (.error (.unboundLocal "error_code"), st, [])

/-- `_set_trigger_mode` (source lines 463-491): recognized mode issues
`SetTriggerMode`; success commits `_trigger_mode` and returns 0, non-success
returns -1 with state unchanged. An unrecognized mode logs a warning and
sets `check_val = -1`, but the following unconditional read of the
never-assigned `error_code` raises UnboundLocalError before returning. -/
def _set_trigger_mode (dll : Dll) (st : IxonState) (mode : String) : PyResult Int :=
  if TriggerMode.hasattr mode then
    let n_mode := TriggerMode.value mode
    let error_code := dll.SetTriggerMode n_mode
    match ERROR_DICT.lookup error_code with
    | none => (.error (.keyError error_code), st, [DllCall.SetTriggerMode n_mode])
    | some s =>
      if s ≠ "DRV_SUCCESS" then (.ok (-1), st, [DllCall.SetTriggerMode n_mode])
      else (.ok 0, { st with _trigger_mode := mode }, [DllCall.SetTriggerMode n_mode])
  else
    (.error (.unboundLocal "error_code"), st, [])

/-- `_set_acquisition_mode` (source lines 562-586): same shape as
`_set_trigger_mode`, including the UnboundLocalError on unrecognized modes. -/
def _set_acquisition_mode (dll : Dll) (st : IxonState) (mode : String) : PyResult Int :=
  if AcquisitionMode.hasattr mode then
    let n_mode := AcquisitionMode.value mode
    let error_code := dll.SetAcquisitionMode n_mode
    match ERROR_DICT.lookup error_code with
    | none => (.error (.keyError error_code), st, [DllCall.SetAcquisitionMode n_mode])
    | some s =>
      if s ≠ "DRV_SUCCESS" then (.ok (-1), st, [DllCall.SetAcquisitionMode n_mode])
      else (.ok 0, { st with _acquisition_mode := mode }, [DllCall.SetAcquisitionMode n_mode])
  else
    (.error (.unboundLocal "error_code"), st, [])

/-- `_set_temperature` (source lines 545-560): a setpoint above
`_min_temperature` is sent to the transport and committed on success. A
setpoint at or below the minimum logs an error and then reads the
never-assigned local `error_code`, raising UnboundLocalError. -/
def _set_temperature (dll : Dll) (st : IxonState) (temp : Int) : PyResult String :=
  if temp > st._min_temperature then
    let error_code := dll.SetTemperature temp
    match ERROR_DICT.lookup error_code with
    | none => (.error (.keyError error_code), st, [DllCall.SetTemperature temp])
    | some s =>
      if s = "DRV_SUCCESS" then (.ok s, { st with _temperature := temp }, [DllCall.SetTemperature temp])
      else (.ok s, st, [DllCall.SetTemperature temp])
  else
    (.error (.unboundLocal "error_code"), st, [])

/-- `_set_shutter` (source lines 405-419): issues `SetShutter` and returns the
decoded status, never touching the object state. -/
def _set_shutter (dll : Dll) (st : IxonState) (typ mode : Int)
    (closingtime openingtime : Rat) : PyResult String :=
  let error_code := dll.SetShutter typ mode closingtime openingtime
  let call := DllCall.SetShutter typ mode closingtime openingtime
  match ERROR_DICT.lookup error_code with
  | none => (.error (.keyError error_code), st, [call])
  | some s => (.ok s, st, [call])

/-- `_start_acquisition` (source lines 398-402): issues `StartAcquisition`,
then for internal trigger mode blocks on `WaitForAcquisition`, and returns
the decoded status of the start call. -/
def _start_acquisition (dll : Dll) (st : IxonState) : PyResult String :=
  let error_code := dll.StartAcquisition
  let calls := if st._trigger_mode = "INTERNAL" then
      [DllCall.StartAcquisition, DllCall.WaitForAcquisition]
    else [DllCall.StartAcquisition]
  match ERROR_DICT.lookup error_code with
  | none => (.error (.keyError error_code), st, calls)
  | some s => (.ok s, st, calls)

/-- `_abort_acquisition` (source lines 390-392). -/
def _abort_acquisition (dll : Dll) (st : IxonState) : PyResult String :=
  let error_code := dll.AbortAcquisition
  match ERROR_DICT.lookup error_code with
  | none => (.error (.keyError error_code), st, [DllCall.AbortAcquisition])
  | some s => (.ok s, st, [DllCall.AbortAcquisition])

/-- `stop_acquisition` (source lines 252-263): abort success clears both the
live and the acquiring flag and returns True; otherwise the flags are left
unchanged and False is returned. -/
def stop_acquisition (dll : Dll) (st : IxonState) : PyResult Bool :=
  match _abort_acquisition dll st with
  | (.error e, st1, c1) => (.error e, st1, c1)
  | (.ok msg, st1, c1) =>
    if msg = "DRV_SUCCESS" then
      (.ok true, { st1 with _live := false, _acquiring := false }, c1)
    else
      (.ok false, st1, c1)

/-- The 0.1 second shutter opening and closing time passed by
`start_single_acquisition` (source line 235), as a rational. -/
def shutter_time : Rat := 1/10

/-- Return value of `start_single_acquisition`: the source returns the
integer -1 on the live-acquisition branch and a boolean otherwise. -/
inductive StartSingleRet
  | retInt (n : Int)
  | retBool (b : Bool)
deriving DecidableEq, Repr

/-- The shutter-opening step of `start_single_acquisition` (source lines
234-239): when the shutter is closed it is opened via `_set_shutter`; a
success commits `_shutter := "open"`, a non-success open is only logged. -/
def shutter_step (dll : Dll) (st : IxonState) : PyResult String :=
  if st._shutter = "closed" then
    match _set_shutter dll st 0 1 shutter_time shutter_time with
    | (.error e, st4, c4) => ((.error e, st4, c4) : PyResult String)
    | (.ok msg, st4, c4) =>
      (.ok msg, (if msg = "DRV_SUCCESS" then { st4 with _shutter := "open" } else st4), c4)
  else ((.ok "", st, []) : PyResult String)

/-- `start_single_acquisition` (source lines 223-250): normalizes read mode,
acquisition mode and trigger mode (each only when not already the target
value), opens the shutter when closed (a non-success open is only logged),
then rejects with -1 when `_live` is set; otherwise sets `_acquiring`,
issues the transport start, returns False on non-success (leaving
`_acquiring` set) and True on success (clearing `_acquiring`). -/
def start_single_acquisition (dll : Dll) (st : IxonState) : PyResult StartSingleRet :=
  match (if st._read_mode ≠ "IMAGE" then _set_read_mode dll st "IMAGE"
         else (.ok 0, st, [])) with
  | (.error e, st1, c1) => (.error e, st1, c1)
  | (.ok _, st1, c1) =>
  match (if st1._acquisition_mode ≠ "SINGLE_SCAN" then _set_acquisition_mode dll st1 "SINGLE_SCAN"
         else (.ok 0, st1, [])) with
  | (.error e, st2, c2) => (.error e, st2, c1 ++ c2)
  | (.ok _, st2, c2) =>
  match (if st2._trigger_mode ≠ "INTERNAL" then _set_trigger_mode dll st2 "INTERNAL"
         else (.ok 0, st2, [])) with
  | (.error e, st3, c3) => (.error e, st3, c1 ++ c2 ++ c3)
  | (.ok _, st3, c3) =>
  match shutter_step dll st3 with
  | (.error e, st4, c4) => (.error e, st4, c1 ++ c2 ++ c3 ++ c4)
  | (.ok _, st4, c4) =>
    if st4._live then
      (.ok (StartSingleRet.retInt (-1)), st4, c1 ++ c2 ++ c3 ++ c4)
    else
      let st5 := { st4 with _acquiring := true }
      match _start_acquisition dll st5 with
      | (.error e, st6, c6) => (.error e, st6, c1 ++ c2 ++ c3 ++ c4 ++ c6)
      | (.ok msg, st6, c6) =>
        if msg ≠ "DRV_SUCCESS" then
          (.ok (StartSingleRet.retBool false), st6, c1 ++ c2 ++ c3 ++ c4 ++ c6)
        else
          (.ok (StartSingleRet.retBool true), { st6 with _acquiring := false },
           c1 ++ c2 ++ c3 ++ c4 ++ c6)

/-- The capability table assembled by `set_gain` (source lines 348-351): the
gain value of every preamp index reported by the transport. -/
def gain_values_of (dll : Dll) : List Rat :=
  (List.range dll.GetNumberPreAmpGains).map dll.GetPreAmpGain

/-- The transport calls issued while assembling the gain capability table. -/
def gain_query_calls (dll : Dll) : List DllCall :=
  DllCall.GetNumberPreAmpGains ::
    (List.range dll.GetNumberPreAmpGains).map DllCall.GetPreAmpGain

/-- Index of the first exact match in the gain table (the enumerate-and-break
loop of source lines 357-360). -/
def gain_index_in (gain : Rat) : List Rat → Nat
  | [] => 0
  | g :: rest => if gain = g then 0 else gain_index_in gain rest + 1

/-- `_set_preamp_gain` (source lines 532-543): issues `SetPreAmpGain`; on
success commits the index and refreshes `_gain` from the transport table. -/
def _set_preamp_gain (dll : Dll) (st : IxonState) (index : Nat) : PyResult String :=
  let error_code := dll.SetPreAmpGain index
  match ERROR_DICT.lookup error_code with
  | none => (.error (.keyError error_code), st, [DllCall.SetPreAmpGain index])
  | some s =>
    if s = "DRV_SUCCESS" then
      (.ok s, { st with _preamp_gain_index := index, _gain := dll.GetPreAmpGain index },
       [DllCall.SetPreAmpGain index, DllCall.GetPreAmpGain index])
    else
      (.ok s, st, [DllCall.SetPreAmpGain index])

/-- `set_gain` (source lines 341-368): fetches the full gain capability table,
rejects a value absent from it with -1 (listing the valid choices in a log
warning, with no `SetPreAmpGain` call); for a present value resolves the
first matching index, applies it, commits index and gain on success, and
returns the current `_gain`. -/
def set_gain (dll : Dll) (st : IxonState) (gain : Rat) : PyResult Rat :=
  let gain_values := gain_values_of dll
  if gain ∈ gain_values then
    let gain_index := gain_index_in gain gain_values
    match _set_preamp_gain dll st gain_index with
    | (.error e, st1, c1) => (.error e, st1, gain_query_calls dll ++ c1)
    | (.ok msg, st1, c1) =>
      if msg = "DRV_SUCCESS" then
        (.ok gain, { st1 with _preamp_gain_index := gain_index, _gain := gain },
         gain_query_calls dll ++ c1)
      else
        (.ok st1._gain, st1, gain_query_calls dll ++ c1)
  else
    (.ok (-1), st, gain_query_calls dll)

/-- `get_gain` (source lines 370-375). -/
def get_gain (st : IxonState) : Rat :=
  st._gain

/-- The expected flat buffer length computed by `get_acquired_data` before
retrieval (source lines 276-293). Mode combinations not covered log an
error and leave the local `dim` unassigned, so the following `int(dim)`
raises UnboundLocalError. -/
def acquired_data_dim (st : IxonState) : Except PyErr Int :=
  if st._read_mode = "IMAGE" then
    if st._acquisition_mode = "SINGLE_SCAN" then .ok (st._width * st._height)
    else if st._acquisition_mode = "KINETICS" then .ok (st._width * st._height * st._scans)
    else if st._acquisition_mode = "RUN_TILL_ABORT" then .ok (st._width * st._height)
    else .error (.unboundLocal "dim")
  else if st._read_mode = "SINGLE_TRACK" ∨ st._read_mode = "FVB" then
    if st._acquisition_mode = "SINGLE_SCAN" then .ok st._width
    else if st._acquisition_mode = "KINETICS" then .ok (st._width * st._scans)
    else .error (.unboundLocal "dim")
  else .error (.unboundLocal "dim")

/-- `get_acquired_data` (source lines 265-314): allocates a zero buffer of the
expected length, retrieves via `GetOldestImage` in run-till-abort mode and
`GetAcquiredData` otherwise, copies the raw samples only on success (a
non-success status is merely logged as a warning, leaving the zero buffer),
then unconditionally reshapes the flat buffer to (height, width) — numpy
raises ValueError when the element counts disagree (geometry is modelled
for the nonnegative widths and heights the device reports) — and finally
subtracts the baseline elementwise. -/
def get_acquired_data (dll : Dll) (st : IxonState) : PyResult (List Int) :=
  match acquired_data_dim st with
  | .error e => (.error e, st, [])
  | .ok dim =>
    if dim < 0 then (.error (.valueError "negative dimensions are not allowed"), st, [])
    else
      let dimN := dim.toNat
      let retrieval :=
        if st._acquisition_mode = "RUN_TILL_ABORT" then
          (dll.GetOldestImage, dll.oldest_image_vals, DllCall.GetOldestImage dim)
        else
          (dll.GetAcquiredData, dll.acquired_data_vals, DllCall.GetAcquiredData dim)
      match ERROR_DICT.lookup retrieval.1 with
      | none => (.error (.keyError retrieval.1), st, [retrieval.2.2])
      | some msg =>
        let image_array :=
          if msg ≠ "DRV_SUCCESS" then List.replicate dimN (0 : Int)
          else (List.range dimN).map retrieval.2.1
        if dim = st._height * st._width then
          let final := image_array.map (fun x => x - st._baseline)
          (.ok final, { st with _cur_image := final }, [retrieval.2.2])
        else
          (.error (.valueError "cannot reshape array"), st, [retrieval.2.2])

/-- `_get_status` (source lines 689-702): declared with no parameter besides
self; issues `GetStatus`, returns -1 on a decoded non-success and the
status value otherwise. -/
def _get_status (dll : Dll) (st : IxonState) : PyResult Int :=
  let error_code := dll.GetStatus
  match ERROR_DICT.lookup error_code with
  | none => (.error (.keyError error_code), st, [DllCall.GetStatus])
  | some s =>
    if s ≠ "DRV_SUCCESS" then (.ok (-1), st, [DllCall.GetStatus])
    else (.ok (Int.ofNat dll.GetStatus_value), st, [DllCall.GetStatus])

/-- Number of parameters of `_get_status` besides self (source line 689). -/
def _get_status_param_count : Nat := 0

/-- Number of positional arguments that `get_ready_state` passes to
`_get_status` (source line 383: `self._get_status(status)`). -/
def get_ready_state_arg_count : Nat := 1

/-- `get_ready_state` (source lines 377-387): the body calls `_get_status`
with one positional argument although the callee takes none besides self,
so Python raises TypeError at the call site, before any transport call; the
rest of the body is unreachable (modelled by the impossible else branch). -/
def get_ready_state (dll : Dll) (st : IxonState) : PyResult Bool :=
  if get_ready_state_arg_count ≠ _get_status_param_count then
    (.error (.typeError "IxonUltra get_status takes 1 positional argument but 2 were given"),
     st, [])
  else
    match _get_status dll st with
    | (.error e, st1, c1) => (.error e, st1, c1)
    | (.ok _, st1, c1) => (.ok false, st1, c1)

/-- A transport whose every primitive reports DRV_SUCCESS, with a three-entry
preamp gain table [1, 2, 4] and uniform raw samples of 300. -/
def dll_ok : Dll where
  SetReadMode := fun _ => 20002
  SetImage := fun _ _ _ _ _ _ => 20002
  SetTriggerMode := fun _ => 20002
  SetAcquisitionMode := fun _ => 20002
  SetTemperature := fun _ => 20002
  SetShutter := fun _ _ _ _ => 20002
  StartAcquisition := 20002
  AbortAcquisition := 20002
  GetNumberPreAmpGains := 3
  GetPreAmpGain := fun i => if i = 0 then 1 else if i = 1 then 2 else 4
  SetPreAmpGain := fun _ => 20002
  GetAcquiredData := 20002
  GetOldestImage := 20002
  acquired_data_vals := fun _ => 300
  oldest_image_vals := fun _ => 300
  GetStatus := 20002
  GetStatus_value := 20073

/-- A representative object state: full-frame single-scan internal-trigger
configuration on a 512 by 512 detector, idle, shutter open. -/
def st0 : IxonState where
  _exposure := 17/100
  _temperature := 0
  _cooler_on := true
  _read_mode := "IMAGE"
  _acquisition_mode := "SINGLE_SCAN"
  _trigger_mode := "INTERNAL"
  _preamp_gain_index := 2
  _gain := 0
  _width := 512
  _height := 512
  _min_temperature := -100
  _live := false
  _shutter := "open"
  _scans := 1
  _acquiring := false
  _baseline := 200
  _hbin := 1
  _vbin := 1
  _hstart := 1
  _hend := 512
  _vstart := 1
  _vend := 512
  _cur_image := []

example : (_set_temperature dll_ok st0 (-150)).1 = .error (.unboundLocal "error_code") := rfl

example : (_set_trigger_mode dll_ok st0 "FOO").1 = .error (.unboundLocal "error_code") := rfl

example : acquired_data_dim st0 = .ok 262144 := rfl

example : acquired_data_dim { st0 with _acquisition_mode := "KINETICS", _scans := 4 }
    = .ok 1048576 := rfl

/-- C1: an out-of-bounds temperature setpoint (at or below the -100 floor) is
not turned into a returned capability-validation error: the source logs and
then reads the never-assigned local `error_code`, so the call raises
UnboundLocalError. The state is left unchanged and no transport call is
made, but no error result is ever produced, contradicting the claimed
setter contract. -/
theorem set_temperature_invalid_raises (dll : Dll) (st : IxonState) (temp : Int)
    (h : temp ≤ st._min_temperature) :
    _set_temperature dll st temp = (.error (.unboundLocal "error_code"), st, []) := by
  unfold _set_temperature
  rw [if_neg (by omega)]

/-- C1 witness: the general theorem applied to the -150 setpoint against the
default -100 floor. -/
theorem set_temperature_invalid_raises_witness :
    (-150 : Int) ≤ st0._min_temperature ∧
    _set_temperature dll_ok st0 (-150) = (.error (.unboundLocal "error_code"), st0, []) :=
  ⟨by decide, set_temperature_invalid_raises dll_ok st0 (-150) (by decide)⟩

/-- C9: for every transport and every camera state, `get_ready_state` raises
TypeError before any transport call is issued, because it passes one
positional argument to `_get_status`, which takes none besides self; hence
the readiness query can never return a boolean. -/
theorem get_ready_state_type_error (dll : Dll) (st : IxonState) :
    get_ready_state dll st =
      (.error (.typeError "IxonUltra get_status takes 1 positional argument but 2 were given"),
       st, []) :=
  rfl

/-- C8: on a 512 by 512 detector the expected flat buffer length is 262144
for full-frame single-scan and run-till-abort, 1048576 for full-frame
kinetics with 4 scans, 512 for single-track or FVB single-scan, and
width times scan count for single-track or FVB kinetics. -/
theorem acquired_data_dim_512 (st : IxonState)
    (hw : st._width = 512) (hh : st._height = 512) :
    (st._read_mode = "IMAGE" → st._acquisition_mode = "SINGLE_SCAN" →
       acquired_data_dim st = .ok 262144) ∧
    (st._read_mode = "IMAGE" → st._acquisition_mode = "RUN_TILL_ABORT" →
       acquired_data_dim st = .ok 262144) ∧
    (st._read_mode = "IMAGE" → st._acquisition_mode = "KINETICS" → st._scans = 4 →
       acquired_data_dim st = .ok 1048576) ∧
    ((st._read_mode = "SINGLE_TRACK" ∨ st._read_mode = "FVB") →
       st._acquisition_mode = "SINGLE_SCAN" → acquired_data_dim st = .ok 512) ∧
    ((st._read_mode = "SINGLE_TRACK" ∨ st._read_mode = "FVB") →
       st._acquisition_mode = "KINETICS" → acquired_data_dim st = .ok (512 * st._scans)) := by
  refine ⟨?_, ?_, ?_, ?_, ?_⟩
  · intro h1 h2
    simp [acquired_data_dim, h1, h2, hw, hh]
  · intro h1 h2
    simp [acquired_data_dim, h1, h2, hw, hh]
  · intro h1 h2 h3
    simp [acquired_data_dim, h1, h2, h3, hw, hh]
  · rintro (h1 | h1) h2 <;> simp [acquired_data_dim, h1, h2, hw, hh]
  · rintro (h1 | h1) h2 <;> simp [acquired_data_dim, h1, h2, hw, hh]

/-- C8 witness: the full-frame single-scan case evaluated on the default
512 by 512 state. -/
theorem acquired_data_dim_512_witness :
    st0._width = 512 ∧ st0._height = 512 ∧ acquired_data_dim st0 = .ok 262144 :=
  ⟨rfl, rfl, (acquired_data_dim_512 st0 rfl rfl).1 rfl rfl⟩

/-- C7: when the abort primitive decodes to DRV_SUCCESS, `stop_acquisition`
clears both the live and the acquiring flag and returns True; when it
decodes to a non-success status, both flags (the whole state) are left
unchanged and False is returned; aborting while idle with success leaves
the state unchanged. -/
theorem stop_acquisition_spec (dll : Dll) (st : IxonState) (m : String)
    (h : ERROR_DICT.lookup dll.AbortAcquisition = some m) :
    (m = "DRV_SUCCESS" →
       stop_acquisition dll st =
         (.ok true, { st with _live := false, _acquiring := false },
          [DllCall.AbortAcquisition])) ∧
    (m ≠ "DRV_SUCCESS" →
       stop_acquisition dll st = (.ok false, st, [DllCall.AbortAcquisition])) ∧
    (st._live = false → st._acquiring = false → m = "DRV_SUCCESS" →
       stop_acquisition dll st = (.ok true, st, [DllCall.AbortAcquisition])) := by
  unfold stop_acquisition _abort_acquisition
  dsimp only
  rw [h]
  refine ⟨?_, ?_, ?_⟩
  · intro hm
    subst hm
    simp
  · intro hm
    simp [hm]
  · intro hl ha hm
    subst hm
    simp only [if_pos rfl]
    cases st
    simp_all

/-- C7 witness: abort success on the idle default state. -/
theorem stop_acquisition_spec_witness :
    ERROR_DICT.lookup dll_ok.AbortAcquisition = some "DRV_SUCCESS" ∧
    stop_acquisition dll_ok st0 = (.ok true, st0, [DllCall.AbortAcquisition]) :=
  ⟨rfl, (stop_acquisition_spec dll_ok st0 "DRV_SUCCESS" rfl).2.2 rfl rfl rfl⟩

/-- C5: a gain value absent from the preamp capability table is rejected with
-1, leaving the whole state (hence the stored gain) unchanged and issuing
no `SetPreAmpGain` transport call; a gain value present in the table, with
the transport accepting the index, is committed, and reading the gain back
returns exactly the value that was set. -/
theorem set_gain_round_trip (dll : Dll) (st : IxonState) (gain : Rat) :
    (gain ∉ gain_values_of dll →
       set_gain dll st gain = (.ok (-1), st, gain_query_calls dll) ∧
       ∀ i, DllCall.SetPreAmpGain i ∉ (set_gain dll st gain).2.2) ∧
    (gain ∈ gain_values_of dll →
       (∀ i, ERROR_DICT.lookup (dll.SetPreAmpGain i) = some "DRV_SUCCESS") →
       (set_gain dll st gain).1 = .ok gain ∧
       get_gain (set_gain dll st gain).2.1 = gain) := by
  constructor
  · intro hno
    have h1 : set_gain dll st gain = (.ok (-1), st, gain_query_calls dll) := by
      unfold set_gain
      rw [if_neg hno]
    refine ⟨h1, ?_⟩
    intro i
    rw [h1]
    simp [gain_query_calls, List.mem_map]
  · intro hyes hok
    unfold set_gain _set_preamp_gain
    dsimp only
    rw [if_pos hyes, hok]
    simp [get_gain]

/-- C5 witness: gain 8 is absent from the table [1, 2, 4] and rejected; gain 2
is present and round-trips. -/
theorem set_gain_round_trip_witness :
    ((8 : Rat) ∉ gain_values_of dll_ok ∧
       set_gain dll_ok st0 8 = (.ok (-1), st0, gain_query_calls dll_ok)) ∧
    ((2 : Rat) ∈ gain_values_of dll_ok ∧
       get_gain (set_gain dll_ok st0 2).2.1 = 2) :=
  ⟨⟨by decide, ((set_gain_round_trip dll_ok st0 8).1 (by decide)).1⟩,
   ⟨by decide, ((set_gain_round_trip dll_ok st0 2).2 (by decide) (fun _ => rfl)).2⟩⟩

/-- A transport on which the read-mode primitive succeeds but the sub-region
application fails with DRV_NO_NEW_DATA. -/
def dll_img_fail : Dll :=
  { dll_ok with SetImage := fun _ _ _ _ _ _ => 20024 }

/-- A state whose committed read mode is FVB. -/
def st_fvb : IxonState :=
  { st0 with _read_mode := "FVB" }

/-- C2 counterexample: with `SetReadMode` succeeding and the full-geometry
`SetImage` failing, `_set_read_mode` to IMAGE nonetheless returns 0
(success) and commits the new read mode, instead of reporting failure and
retaining the previously committed FVB mode. -/
theorem read_mode_commits_despite_subregion_failure :
    st_fvb._read_mode = "FVB" ∧
    ERROR_DICT.lookup (dll_img_fail.SetImage 1 1 1 512 1 512) = some "DRV_NO_NEW_DATA" ∧
    _set_read_mode dll_img_fail st_fvb "IMAGE" =
      (.ok 0, { st_fvb with _read_mode := "IMAGE" },
       [DllCall.SetReadMode 4, DllCall.SetImage 1 1 1 512 1 512]) :=
  ⟨rfl, rfl, rfl⟩

/-- The trace of `_set_image` is the single `SetImage` transport call in every
branch. -/
theorem set_image_trace (dll : Dll) (st : IxonState) (a b c d e f : Int) :
    (_set_image dll st a b c d e f).2.2 = [DllCall.SetImage a b c d e f] := by
  unfold _set_image
  dsimp only
  split
  · rfl
  · split <;> rfl

/-- C2 amended: switching the read mode to IMAGE always issues the
full-geometry sub-region application, but a non-success sub-region status
is only logged: provided the `SetReadMode` status itself decodes to
success, the setter still returns 0 and commits the new read mode (the
previously committed mode is not retained and no failure is reported). -/
theorem read_mode_image_subregion (dll : Dll) (st : IxonState) (m : String)
    (hr : ERROR_DICT.lookup (dll.SetReadMode 4) = some "DRV_SUCCESS")
    (hi : ERROR_DICT.lookup (dll.SetImage 1 1 1 st._width 1 st._height) = some m)
    (hm : m ≠ "DRV_SUCCESS") :
    (∀ (dll2 : Dll) (st2 : IxonState),
       DllCall.SetImage 1 1 1 st2._width 1 st2._height ∈
         (_set_read_mode dll2 st2 "IMAGE").2.2) ∧
    _set_read_mode dll st "IMAGE" =
      (.ok 0, { st with _read_mode := "IMAGE" },
       [DllCall.SetReadMode 4, DllCall.SetImage 1 1 1 st._width 1 st._height]) := by
  constructor
  · intro dll2 st2
    have htr := set_image_trace dll2 st2 1 1 1 st2._width 1 st2._height
    unfold _set_read_mode
    simp only [ReadMode.hasattr, ReadMode.value]
    norm_num
    rcases h : _set_image dll2 st2 1 1 1 st2._width 1 st2._height with ⟨r, st1, c1⟩
    rw [h] at htr
    simp only at htr
    subst htr
    rcases r with e | v
    · simp
    · rcases hl : ERROR_DICT.lookup (dll2.SetReadMode 4) with _ | s
      · simp only [hl]
        simp
      · simp only [hl]
        split <;> simp
  · have htr := set_image_trace dll st 1 1 1 st._width 1 st._height
    unfold _set_read_mode
    simp only [ReadMode.hasattr, ReadMode.value]
    norm_num
    rcases h : _set_image dll st 1 1 1 st._width 1 st._height with ⟨r, st1, c1⟩
    have hval : _set_image dll st 1 1 1 st._width 1 st._height = (.ok m, st, [DllCall.SetImage 1 1 1 st._width 1 st._height]) := by
      unfold _set_image
      dsimp only
      rw [hi]
      dsimp only
      rw [if_neg hm]
    rw [h] at hval
    injection hval with hv1 hval2
    injection hval2 with hv2 hv3
    subst hv1 hv2 hv3
    simp only [hr]
    simp [hm]

/-- C2 amended witness: the amended theorem evaluated on the FVB state and the
transport whose sub-region application fails. -/
theorem read_mode_image_subregion_witness :
    ERROR_DICT.lookup (dll_img_fail.SetReadMode 4) = some "DRV_SUCCESS" ∧
    _set_read_mode dll_img_fail st_fvb "IMAGE" =
      (.ok 0, { st_fvb with _read_mode := "IMAGE" },
       [DllCall.SetReadMode 4, DllCall.SetImage 1 1 1 st_fvb._width 1 st_fvb._height]) :=
  ⟨rfl,
   (read_mode_image_subregion dll_img_fail st_fvb "DRV_NO_NEW_DATA" rfl rfl
     (by decide)).2⟩

/-- A transport whose start primitive fails with DRV_ERROR_ACK while
everything else succeeds. -/
def dll_start_fail : Dll :=
  { dll_ok with StartAcquisition := 20013 }

/-- C4 counterexample: on transport start failure the single-acquisition start
returns False but leaves the acquiring flag set — the state machine does
not return to Idle as claimed. -/
theorem single_start_failure_leaves_acquiring :
    ERROR_DICT.lookup dll_start_fail.StartAcquisition = some "DRV_ERROR_ACK" ∧
    (start_single_acquisition dll_start_fail st0).1 = .ok (StartSingleRet.retBool false) ∧
    ((start_single_acquisition dll_start_fail st0).2.1)._acquiring = true :=
  ⟨rfl, rfl, rfl⟩

/-- C4 amended: from a normalized idle state (full-frame, single-scan,
internal trigger, shutter not closed, not live), a transport start that
decodes to success returns True with the acquiring flag cleared; a start
that decodes to a non-success status returns False with the acquiring flag
left set (the state machine stays marked as acquiring rather than
returning to Idle). -/
theorem single_acquisition_start_outcome (dll : Dll) (st : IxonState) (m : String)
    (h1 : st._read_mode = "IMAGE") (h2 : st._acquisition_mode = "SINGLE_SCAN")
    (h3 : st._trigger_mode = "INTERNAL") (h4 : st._shutter ≠ "closed")
    (h5 : st._live = false)
    (hm : ERROR_DICT.lookup dll.StartAcquisition = some m) :
    (m = "DRV_SUCCESS" →
       start_single_acquisition dll st =
         (.ok (StartSingleRet.retBool true), { st with _acquiring := false },
          [DllCall.StartAcquisition, DllCall.WaitForAcquisition])) ∧
    (m ≠ "DRV_SUCCESS" →
       start_single_acquisition dll st =
         (.ok (StartSingleRet.retBool false), { st with _acquiring := true },
          [DllCall.StartAcquisition, DllCall.WaitForAcquisition])) := by
  obtain ⟨e1, e2, e3, rm, am, tm, pg, g, w, hgt, mt, lv, sh, sc, acq, bl, b1, b2, b3, b4, b5, b6, ci⟩ := st
  simp only at h1 h2 h3 h4 h5
  subst h1 h2 h3 h5
  unfold start_single_acquisition shutter_step _start_acquisition
  simp only [ne_eq, if_neg h4]
  norm_num
  rw [hm]
  constructor
  · intro hcase
    subst hcase
    simp [h4]
  · intro hcase
    simp [h4, hcase]

/-- C4 amended witness: the success half evaluated on the all-success
transport and the default idle state. -/
theorem single_acquisition_start_outcome_witness :
    ERROR_DICT.lookup dll_ok.StartAcquisition = some "DRV_SUCCESS" ∧
    start_single_acquisition dll_ok st0 =
      (.ok (StartSingleRet.retBool true), { st0 with _acquiring := false },
       [DllCall.StartAcquisition, DllCall.WaitForAcquisition]) :=
  ⟨rfl,
   (single_acquisition_start_outcome dll_ok st0 "DRV_SUCCESS" rfl rfl rfl
     (by decide) rfl rfl).1 rfl⟩

/-- `_set_read_mode` never issues the transport start primitive and never
touches the live flag. -/
theorem set_read_mode_step (dll : Dll) (st : IxonState) (mode : String) :
    DllCall.StartAcquisition ∉ (_set_read_mode dll st mode).2.2 ∧
    ((_set_read_mode dll st mode).2.1)._live = st._live := by
  by_cases him : mode = "IMAGE"
  · subst him
    have htr := set_image_trace dll st 1 1 1 st._width 1 st._height
    have hlv : ((_set_image dll st 1 1 1 st._width 1 st._height).2.1)._live = st._live := by
      unfold _set_image
      dsimp only
      split
      · rfl
      · split <;> rfl
    unfold _set_read_mode
    simp only [ReadMode.hasattr, ReadMode.value]
    norm_num
    rcases h : _set_image dll st 1 1 1 st._width 1 st._height with ⟨r, st1, c1⟩
    rw [h] at htr hlv
    simp only at htr hlv
    subst htr
    rcases r with e | v
    · simpa using hlv
    · rcases hl : ERROR_DICT.lookup (dll.SetReadMode 4) with _ | s
      · simp only [hl]
        simpa using hlv
      · simp only [hl]
        split <;> simp_all
  · unfold _set_read_mode
    dsimp only
    rw [if_neg him]
    split
    · rcases hl : ERROR_DICT.lookup (dll.SetReadMode (ReadMode.value mode)) with _ | s
      · simp only [hl]
        simp
      · simp only [hl]
        split <;> simp
    · simp

/-- `_set_acquisition_mode` never issues the transport start primitive and
never touches the live flag. -/
theorem set_acquisition_mode_step (dll : Dll) (st : IxonState) (mode : String) :
    DllCall.StartAcquisition ∉ (_set_acquisition_mode dll st mode).2.2 ∧
    ((_set_acquisition_mode dll st mode).2.1)._live = st._live := by
  unfold _set_acquisition_mode
  dsimp only
  split
  · rcases h : ERROR_DICT.lookup (dll.SetAcquisitionMode (AcquisitionMode.value mode)) with _ | s
    · simp
    · dsimp only
      split <;> simp
  · simp

/-- `_set_trigger_mode` never issues the transport start primitive and never
touches the live flag. -/
theorem set_trigger_mode_step (dll : Dll) (st : IxonState) (mode : String) :
    DllCall.StartAcquisition ∉ (_set_trigger_mode dll st mode).2.2 ∧
    ((_set_trigger_mode dll st mode).2.1)._live = st._live := by
  unfold _set_trigger_mode
  dsimp only
  split
  · rcases h : ERROR_DICT.lookup (dll.SetTriggerMode (TriggerMode.value mode)) with _ | s
    · simp
    · dsimp only
      split <;> simp
  · simp

/-- `_set_shutter` never issues the transport start primitive and never
touches the state at all. -/
theorem set_shutter_step (dll : Dll) (st : IxonState) (typ mode : Int)
    (ct ot : Rat) :
    DllCall.StartAcquisition ∉ (_set_shutter dll st typ mode ct ot).2.2 ∧
    (_set_shutter dll st typ mode ct ot).2.1 = st := by
  unfold _set_shutter
  dsimp only
  split <;> simp

/-- A state marked live with the shutter still closed. -/
def st_live_closed : IxonState :=
  { st0 with _live := true, _shutter := "closed" }

/-- C3 counterexample: with a live acquisition marked active and the shutter
closed, the single-acquisition request is rejected with -1, but a transport
call (the shutter open) has already been issued, so the rejection is not
free of transport calls as claimed. -/
theorem live_rejection_issues_transport_calls :
    st_live_closed._live = true ∧
    (start_single_acquisition dll_ok st_live_closed).1 = .ok (StartSingleRet.retInt (-1)) ∧
    (start_single_acquisition dll_ok st_live_closed).2.2 =
      [DllCall.SetShutter 0 1 shutter_time shutter_time] :=
  ⟨rfl, rfl, rfl⟩

/-- C3 amended: whenever the live flag is set, the single-acquisition request
never issues the transport start primitive and, whenever it returns without
raising, it returns the busy result -1; however the preceding normalization
and shutter steps may already have issued other transport calls. -/
theorem live_rejects_without_start (dll : Dll) (st : IxonState)
    (hlive : st._live = true) :
    DllCall.StartAcquisition ∉ (start_single_acquisition dll st).2.2 ∧
    ∀ r, (start_single_acquisition dll st).1 = .ok r → r = StartSingleRet.retInt (-1) := by
  unfold start_single_acquisition
  rcases h1 : (if st._read_mode ≠ "IMAGE" then _set_read_mode dll st "IMAGE"
               else (.ok 0, st, [])) with ⟨r1, st1, c1⟩
  have hs1 : DllCall.StartAcquisition ∉ c1 ∧ st1._live = st._live := by
    by_cases hc : st._read_mode ≠ "IMAGE"
    · rw [if_pos hc] at h1
      have haux := set_read_mode_step dll st "IMAGE"
      rw [h1] at haux
      simpa using haux
    · rw [if_neg hc] at h1
      simp only [Prod.mk.injEq] at h1
      obtain ⟨-, h1b, h1c⟩ := h1
      subst h1b h1c
      simp
  rcases r1 with e1 | v1
  · dsimp only
    exact ⟨hs1.1, fun r hr => by simp at hr⟩
  · dsimp only
    rcases h2 : (if st1._acquisition_mode ≠ "SINGLE_SCAN" then
                   _set_acquisition_mode dll st1 "SINGLE_SCAN"
                 else (.ok 0, st1, [])) with ⟨r2, st2, c2⟩
    have hs2 : DllCall.StartAcquisition ∉ c2 ∧ st2._live = st1._live := by
      by_cases hc : st1._acquisition_mode ≠ "SINGLE_SCAN"
      · rw [if_pos hc] at h2
        have haux := set_acquisition_mode_step dll st1 "SINGLE_SCAN"
        rw [h2] at haux
        simpa using haux
      · rw [if_neg hc] at h2
        simp only [Prod.mk.injEq] at h2
        obtain ⟨-, h2b, h2c⟩ := h2
        subst h2b h2c
        simp
    rcases r2 with e2 | v2
    · dsimp only
      refine ⟨?_, fun r hr => by simp at hr⟩
      simp [hs1.1, hs2.1]
    · dsimp only
      rcases h3 : (if st2._trigger_mode ≠ "INTERNAL" then
                     _set_trigger_mode dll st2 "INTERNAL"
                   else (.ok 0, st2, [])) with ⟨r3, st3, c3⟩
      have hs3 : DllCall.StartAcquisition ∉ c3 ∧ st3._live = st2._live := by
        by_cases hc : st2._trigger_mode ≠ "INTERNAL"
        · rw [if_pos hc] at h3
          have haux := set_trigger_mode_step dll st2 "INTERNAL"
          rw [h3] at haux
          simpa using haux
        · rw [if_neg hc] at h3
          simp only [Prod.mk.injEq] at h3
          obtain ⟨-, h3b, h3c⟩ := h3
          subst h3b h3c
          simp
      rcases r3 with e3 | v3
      · dsimp only
        refine ⟨?_, fun r hr => by simp at hr⟩
        simp [hs1.1, hs2.1, hs3.1]
      · dsimp only
        rcases h4 : shutter_step dll st3 with ⟨r4, st4, c4⟩
        have hs4 : DllCall.StartAcquisition ∉ c4 ∧ st4._live = st3._live := by
          unfold shutter_step at h4
          by_cases hc : st3._shutter = "closed"
          · rw [if_pos hc] at h4
            have haux := set_shutter_step dll st3 0 1 shutter_time shutter_time
            rcases hss : _set_shutter dll st3 0 1 shutter_time shutter_time with ⟨rs, sts, cs⟩
            rw [hss] at h4 haux
            simp only at haux
            rcases rs with es | vs
            · dsimp only at h4
              simp only [Prod.mk.injEq] at h4
              obtain ⟨-, h4b, h4c⟩ := h4
              subst h4b h4c
              simp [haux.1, haux.2]
            · dsimp only at h4
              simp only [Prod.mk.injEq] at h4
              obtain ⟨-, h4b, h4c⟩ := h4
              subst h4b h4c
              refine ⟨haux.1, ?_⟩
              by_cases hv : vs = "DRV_SUCCESS"
              · simp [hv, haux.2]
              · simp [hv, haux.2]
          · rw [if_neg hc] at h4
            simp only [Prod.mk.injEq] at h4
            obtain ⟨-, h4b, h4c⟩ := h4
            subst h4b h4c
            simp
        rcases r4 with e4 | v4
        · refine ⟨?_, fun r hr => by simp at hr⟩
          simp [hs1.1, hs2.1, hs3.1, hs4.1]
        · have hlive4 : st4._live = true := by
            rw [hs4.2, hs3.2, hs2.2, hs1.2, hlive]
          simp only [hlive4]
          refine ⟨?_, ?_⟩
          · simp [hs1.1, hs2.1, hs3.1, hs4.1]
          · intro r hr
            simp at hr
            exact hr.symm

/-- C3 amended witness: the theorem applied to the live state with the closed
shutter; the rejection returns -1 and the trace, although nonempty,
contains no start call. -/
theorem live_rejects_without_start_witness :
    st_live_closed._live = true ∧
    DllCall.StartAcquisition ∉ (start_single_acquisition dll_ok st_live_closed).2.2 :=
  ⟨rfl, (live_rejects_without_start dll_ok st_live_closed rfl).1⟩

/-- A transport whose image-read primitive fails with DRV_NO_NEW_DATA. -/
def dll_read_fail : Dll :=
  { dll_ok with GetAcquiredData := 20024 }

/-- A full-frame single-scan state on a small 2 by 2 detector. -/
def st_2x2 : IxonState :=
  { st0 with _width := 2, _height := 2 }

/-- C6: when the transport image read fails, `get_acquired_data` only logs a
warning and then returns the untouched zero buffer, baseline-subtracted, as
if it were a valid frame: the caller receives a uniform -200 array and no
failure result, contradicting the claimed (and spec-intended) behavior of
reporting the failure instead of fabricating data. -/
theorem retrieval_failure_returns_fabricated_frame :
    ERROR_DICT.lookup dll_read_fail.GetAcquiredData = some "DRV_NO_NEW_DATA" ∧
    get_acquired_data dll_read_fail st_2x2 =
      (.ok [-200, -200, -200, -200],
       { st_2x2 with _cur_image := [-200, -200, -200, -200] },
       [DllCall.GetAcquiredData 4]) :=
  ⟨rfl, rfl⟩

/-- Whether a retrieval result is a normally returned frame (as opposed to a
raised exception). -/
def returns_frame : PyResult (List Int) → Bool
  | (Except.ok _, _, _) => true
  | (Except.error _, _, _) => false

/-- A single-track kinetics state whose scan count happens to equal the
detector height. -/
def st_track_match : IxonState :=
  { st0 with _read_mode := "FVB", _acquisition_mode := "KINETICS",
             _width := 3, _height := 2, _scans := 2 }

/-- C10 counterexample: in FVB kinetics with height 2 and scan count 2, the
flat buffer has width times scans = height times width elements, the
reshape succeeds, and `get_acquired_data` does return a frame — so the
claim that these modes can never return a frame is too strong. -/
theorem fvb_kinetics_scans_eq_height_returns_frame :
    st_track_match._read_mode = "FVB" ∧ (1 : Int) < st_track_match._height ∧
    (get_acquired_data dll_ok st_track_match).1 =
      .ok [100, 100, 100, 100, 100, 100] :=
  ⟨rfl, by decide, rfl⟩

/-- C10 amended: for read mode SINGLE_TRACK or FVB on a detector with height
above 1 (and positive width), `get_acquired_data` can never return a frame
in single-scan mode, and in kinetics mode it can never return a frame
unless the scan count equals the detector height: the flat buffer of
width (or width times scans) elements cannot be reshaped to
(height, width). -/
theorem track_modes_return_no_frame (dll : Dll) (st : IxonState)
    (hr : st._read_mode = "SINGLE_TRACK" ∨ st._read_mode = "FVB")
    (hh : 1 < st._height) (hw : 0 < st._width)
    (ha : st._acquisition_mode = "SINGLE_SCAN" ∨
          (st._acquisition_mode = "KINETICS" ∧ st._scans ≠ st._height)) :
    returns_frame (get_acquired_data dll st) = false := by
  have hdim : (st._acquisition_mode = "SINGLE_SCAN" → acquired_data_dim st = .ok st._width) ∧
      (st._acquisition_mode = "KINETICS" →
        acquired_data_dim st = .ok (st._width * st._scans)) := by
    constructor <;> intro hacq <;>
      rcases hr with h | h <;> simp [acquired_data_dim, h, hacq]
  have hne : ∀ d : Int, acquired_data_dim st = .ok d → ¬ d < 0 →
      d ≠ st._height * st._width := by
    intro d hd hdneg
    rcases ha with hacq | ⟨hacq, hsc⟩
    · rw [hdim.1 hacq] at hd
      injection hd with hd
      subst hd
      intro hcontra
      nlinarith
    · rw [hdim.2 hacq] at hd
      injection hd with hd
      subst hd
      intro hcontra
      apply hsc
      have hw0 : st._width ≠ 0 := by omega
      have := mul_left_cancel₀ hw0 (hcontra.trans (mul_comm st._height st._width))
      exact this
  unfold get_acquired_data
  rcases hd : acquired_data_dim st with e | d
  · rfl
  · dsimp only
    by_cases hdneg : d < 0
    · rw [if_pos hdneg]
      rfl
    · rw [if_neg hdneg]
      have hne2 := hne d hd hdneg
      rcases hl : ERROR_DICT.lookup
          (if st._acquisition_mode = "RUN_TILL_ABORT" then
            (dll.GetOldestImage, dll.oldest_image_vals, DllCall.GetOldestImage d)
          else (dll.GetAcquiredData, dll.acquired_data_vals, DllCall.GetAcquiredData d)).1
        with _ | msg
      · simp only [hl]
        rfl
      · simp only [hl]
        rw [if_neg hne2]
        rfl

/-- A single-track single-scan state on a 3 by 2 detector. -/
def st_track_single : IxonState :=
  { st0 with _read_mode := "SINGLE_TRACK", _width := 3, _height := 2 }

/-- C10 amended witness: single-track single-scan on a 3 by 2 detector never
returns a frame. -/
theorem track_modes_return_no_frame_witness :
    (1 : Int) < st_track_single._height ∧
    returns_frame (get_acquired_data dll_ok st_track_single) = false :=
  ⟨by decide,
   track_modes_return_no_frame dll_ok st_track_single
     (Or.inl rfl) (by decide) (by decide) (Or.inl rfl)⟩

end IxonUltra
